import Mathlib

/-!
Verification of the kindmesh data/access core (`kindmesh/utils/graph.py`)
against its natural-language specification.

The Neo4j property graph is embedded shallowly as a `Store` value: one list
per node label (`User`, `Recipient`, `Interaction`, `SurveyResponse`,
`Survey`) and one list of `(srcNodeId, dstNodeId)` pairs per relationship
type.  Cypher `datetime()` is modelled by an explicit `now : Nat` argument
supplied by the caller, and the bcrypt calls (external, salted and hence
nondeterministic) are modelled by explicit `password_hash` arguments and a
`checkpw` function parameter.  Each method of `GraphDatabase` becomes a
function from a `Store` (and its arguments) to a result paired with the new
`Store`; a method that can raise (`create_user` raising `ValueError`)
returns `Except`.

The database schema installed by `init-db.cypher` (referenced from
`scripts/generate_password_hash.py` but not part of the source tree) is
assumed to enforce uniqueness of `User.username`; every code path creating
`Recipient` or `SurveyResponse` nodes goes through `MERGE` on their keys,
so `MATCH` on a username and `MERGE` on a recipient key bind at most one
node, which is how they are embedded here.
-/

namespace KindMesh

/-- Python truthiness of an optional string argument (`if x:`):
`None` and the empty string are falsy. -/
def pyTruthy : Option String → Bool
  | none => false
  | some s => !(s == "")

/-- A `:User` node.  `password_hash`, `role` and `created_at` are optional
because `create_survey`'s `MERGE (creator:User {username: $created_by})`
can create a User node carrying only a username. -/
structure UserNode where
  nodeId : Nat
  username : String
  password_hash : Option String
  role : Option String
  created_at : Option Nat
deriving Repr, DecidableEq

/-- A `:Recipient` node.  Every creation site sets `created_at` via
`ON CREATE SET`; `pseudonym` is optional. -/
structure RecipientNode where
  nodeId : Nat
  key : String
  pseudonym : Option String
  created_at : Nat
deriving Repr, DecidableEq

/-- An `:Interaction` node (`timestamp`, `type`, `notes`); `type` is a Lean
keyword so the field is named `itype`. -/
structure InteractionNode where
  nodeId : Nat
  timestamp : Nat
  itype : String
  notes : Option String
deriving Repr, DecidableEq

/-- A `:SurveyResponse` node.  The answers are stored as the JSON string
`responses_json` (the Python code stores `json.dumps(responses)`). -/
structure ResponseNode where
  nodeId : Nat
  sectionName : String
  recipient_key : String
  responses_json : String
  created_at : Nat
  updated_at : Option Nat
  survey_id : Option String
  submitted_by : Option String
deriving Repr, DecidableEq

/-- A `:Survey` node. -/
structure SurveyNode where
  nodeId : Nat
  sid : String
  name : String
  description : String
  sections_json : String
  created_at : Nat
  created_by : String
deriving Repr, DecidableEq

/-- The property graph: node lists per label, edge lists per relationship
type (`(src, dst)` node-id pairs), and a fresh-node-id counter. -/
structure Store where
  users : List UserNode
  recipients : List RecipientNode
  interactions : List InteractionNode
  responses : List ResponseNode
  surveys : List SurveyNode
  logged : List (Nat × Nat)
  involves : List (Nat × Nat)
  provided : List (Nat × Nat)
  responded_to : List (Nat × Nat)
  has_response : List (Nat × Nat)
  created : List (Nat × Nat)
  demoted : List (Nat × Nat)
  nextId : Nat
deriving Repr, DecidableEq

def emptyStore : Store :=
  ⟨[], [], [], [], [], [], [], [], [], [], [], [], 0⟩

/-! ## Password policy (`app/password_policy.py`, `validate_password`) -/

def hasLowercase (s : String) : Bool :=
  s.toList.any (fun c => decide ('a' ≤ c) && decide (c ≤ 'z'))

def hasUppercase (s : String) : Bool :=
  s.toList.any (fun c => decide ('A' ≤ c) && decide (c ≤ 'Z'))

def hasDigitChar (s : String) : Bool :=
  s.toList.any (fun c => decide ('0' ≤ c) && decide (c ≤ '9'))

def specialChars : List Char :=
  "!@#$%^&*(),.?\":\x7b\x7d|<>".toList

def hasSpecialChar (s : String) : Bool :=
  s.toList.any (fun c => specialChars.contains c)

/-- `validate_password(password, min_length=8)`: minimum length 8, at least
one lowercase letter, uppercase letter, digit and special character.
Returns the boolean component (the error-message list is not modelled). -/
def validate_password (password : String) : Bool :=
  decide (8 ≤ password.length) && hasLowercase password && hasUppercase password
    && hasDigitChar password && hasSpecialChar password

/-! ## `authenticate_user` -/

/-- `GraphDatabase.authenticate_user(username, password)`.
`checkpw` stands for `bcrypt.checkpw` (an external function).  A user whose
node has no `password_hash` property makes `stored_hash.encode` raise, and
the handler returns `(False, None)`; likewise an absent username or a
failed hash check returns `(False, None)`.  Success returns
`(True, {username, role})`. -/
def authenticate_user (checkpw : String → String → Bool) (s : Store)
    (username password : String) : Bool × Option (String × Option String) :=
  match s.users.find? (fun u => u.username == username) with
  | none => (false, none)
  | some u =>
    match u.password_hash with
    | none => (false, none)
    | some stored_hash =>
      if checkpw password stored_hash then (true, some (u.username, u.role))
      else (false, none)

/-! ## `create_user` -/

/-- `GraphDatabase.create_user(username, password, role="Friend",
created_by=None)`.  `password_hash` stands for the freshly generated
`bcrypt.hashpw(password, gensalt())` value and `now` for `datetime()`.
An invalid password raises `ValueError`, embedded as `Except.error ()`.
When the requested role is `"Friend"` and no user other than the seed
account `'Hello'` exists, the role is upgraded to `"Admin"`.
With a truthy `created_by` the query first matches the creator (an absent
creator yields zero rows, hence `False` with no write).  The duplicate
check is modelled from the spec: the `username` uniqueness constraint of
`init-db.cypher` (not in the source tree) makes `CREATE` raise on a
duplicate username, and the handler returns `False`. -/
def create_user (s : Store) (username password : String) (role : String)
    (created_by : Option String) (password_hash : String) (now : Nat) :
    Except Unit (Bool × Store) :=
  if validate_password password = false then Except.error ()
  else
    let nonSeed := (s.users.filter (fun u => !(u.username == "Hello"))).length
    let role1 := if role == "Friend" && nonSeed == 0 then "Admin" else role
    if pyTruthy created_by then
      match s.users.find? (fun u => some u.username == created_by) with
      | none => Except.ok (false, s)
      | some creator =>
        if s.users.any (fun u => u.username == username) then Except.ok (false, s)
        else
          Except.ok (true,
            { s with
              users := s.users ++ [⟨s.nextId, username, some password_hash, some role1, some now⟩]
              created := s.created ++ [(creator.nodeId, s.nextId)]
              nextId := s.nextId + 1 })
    else
      if s.users.any (fun u => u.username == username) then Except.ok (false, s)
      else
        Except.ok (true,
          { s with
            users := s.users ++ [⟨s.nextId, username, some password_hash, some role1, some now⟩]
            nextId := s.nextId + 1 })

/-! ## `demote_admin` -/

/-- `GraphDatabase.demote_admin(username, demoted_by)`.
Fails when `len(demoted_by) < 2`; then counts the user nodes whose
username is in `demoted_by` with role `'Admin'` (a node is counted once
however often its name repeats in the list) and fails when the count is
below 2; then the demotion query sets `role = 'Friend'` on every matching
Admin node named `username` and creates one `DEMOTED` edge per unwound
voter name per matching voter node, returning `True` iff the final query
produced at least one row. -/
def demote_admin (s : Store) (username : String) (demoted_by : List String)
    (_now : Nat) : Bool × Store :=
  if demoted_by.length < 2 then (false, s)
  else
    let admin_count :=
      (s.users.filter
        (fun u => demoted_by.contains u.username && u.role == some "Admin")).length
    if admin_count < 2 then (false, s)
    else
      let targets := s.users.filter
        (fun u => u.username == username && u.role == some "Admin")
      if targets.isEmpty then (false, s)
      else
        let users' := s.users.map
          (fun u => if u.username == username && u.role == some "Admin" then
            { u with role := some "Friend" } else u)
        let newEdges := targets.flatMap (fun t =>
          demoted_by.flatMap (fun nm =>
            (s.users.filter (fun d => d.username == nm)).map
              (fun d => (d.nodeId, t.nodeId))))
        (!newEdges.isEmpty,
          { s with users := users', demoted := s.demoted ++ newEdges })

/-! ## `delete_user` -/

/-- `GraphDatabase.delete_user(username)`: `DETACH DELETE` removes every
matching User node together with every relationship attached to it, and
returns `True` iff at least one node was deleted.  Interaction, Recipient,
Survey and SurveyResponse nodes are untouched. -/
def delete_user (s : Store) (username : String) : Bool × Store :=
  let doomed := (s.users.filter (fun u => u.username == username)).map (·.nodeId)
  let keep := fun (e : Nat × Nat) => !(doomed.contains e.1) && !(doomed.contains e.2)
  ((s.users.filter (fun u => u.username == username)).length > 0,
    { s with
      users := s.users.filter (fun u => !(u.username == username))
      logged := s.logged.filter keep
      involves := s.involves.filter keep
      provided := s.provided.filter keep
      responded_to := s.responded_to.filter keep
      has_response := s.has_response.filter keep
      created := s.created.filter keep
      demoted := s.demoted.filter keep })

/-! ## `create_recipient` -/

/-- `GraphDatabase.create_recipient(key, pseudonym=None)`.
The query is `MERGE (r:Recipient {key: $key}) ON CREATE SET
r.created_at = datetime()` and, only when `pseudonym` is truthy, the text
`, r.pseudonym = $pseudonym` is appended — to the `ON CREATE SET` clause,
so an existing recipient is left entirely unchanged.  The `MERGE` always
yields a row, so the call returns `True`. -/
def create_recipient (s : Store) (key : String) (pseudonym : Option String)
    (now : Nat) : Bool × Store :=
  if s.recipients.any (fun r => r.key == key) then (true, s)
  else
    let pfield := if pyTruthy pseudonym then pseudonym else none
    (true,
      { s with
        recipients := s.recipients ++ [⟨s.nextId, key, pfield, now⟩]
        nextId := s.nextId + 1 })

/-! ## `save_questionnaire` -/

/-- Merge of the `:Recipient` node shared by all three `save_questionnaire`
queries: `MERGE (r:Recipient {key}) ON CREATE SET r.created_at = datetime()`.
Returns the store and the bound recipient's node id. -/
def mergeRecipient (s : Store) (key : String) (now : Nat) : Store × Nat :=
  match s.recipients.find? (fun r => r.key == key) with
  | some r => (s, r.nodeId)
  | none =>
    ({ s with
        recipients := s.recipients ++ [⟨s.nextId, key, none, now⟩]
        nextId := s.nextId + 1 },
      s.nextId)

/-- Merge of the `:SurveyResponse` node shared by the three
`save_questionnaire` queries: `MERGE (q:SurveyResponse {section,
recipient_key})`, `ON CREATE SET created_at, responses_json` and `ON MATCH
SET updated_at, responses_json`, each branch additionally setting
`survey_id` and/or `submitted_by` when those arguments were supplied
(`none` here means the branch's query does not mention the property, so an
existing value is left in place). -/
def mergeResponse (s : Store) (rk sec json : String) (sid sb : Option String)
    (now : Nat) : Store × Nat :=
  match s.responses.find? (fun q => q.sectionName == sec && q.recipient_key == rk) with
  | some q0 =>
    ({ s with
        responses := s.responses.map (fun q =>
          if q.sectionName == sec && q.recipient_key == rk then
            { q with
              updated_at := some now
              responses_json := json
              survey_id := match sid with | some v => some v | none => q.survey_id
              submitted_by := match sb with | some v => some v | none => q.submitted_by }
          else q) },
      q0.nodeId)
  | none =>
    ({ s with
        responses := s.responses ++ [⟨s.nextId, sec, rk, json, now, none, sid, sb⟩]
        nextId := s.nextId + 1 },
      s.nextId)

/-- `MERGE` of a relationship: add the `(src, dst)` pair unless present. -/
def mergeEdge (l : List (Nat × Nat)) (e : Nat × Nat) : List (Nat × Nat) :=
  if l.contains e then l else l ++ [e]

/-- `GraphDatabase.save_questionnaire(recipient_key, section, responses,
survey_id=None, username=None)`.  `responses_json` stands for
`json.dumps(responses)`.  The query is chosen by Python truthiness of
`survey_id` and `username`; the first two variants start with `MATCH` on
the user and/or survey, so an absent user or survey yields zero rows and
`False` with no write.  All variants merge the recipient and the response
and merge the `PROVIDED` (and, with a survey, `RESPONDED_TO` and
`HAS_RESPONSE`) relationships. -/
def save_questionnaire (s : Store) (recipient_key sectionArg responses_json : String)
    (survey_id username : Option String) (now : Nat) : Bool × Store :=
  if pyTruthy survey_id && pyTruthy username then
    match s.users.find? (fun u => some u.username == username) with
    | none => (false, s)
    | some _ =>
      match s.surveys.find? (fun sv => some sv.sid == survey_id) with
      | none => (false, s)
      | some sv =>
        let m1 := mergeRecipient s recipient_key now
        let m2 := mergeResponse m1.1 recipient_key sectionArg responses_json
          survey_id username now
        (true,
          { m2.1 with
            responded_to := mergeEdge m2.1.responded_to (m1.2, sv.nodeId)
            has_response := mergeEdge m2.1.has_response (sv.nodeId, m2.2)
            provided := mergeEdge m2.1.provided (m1.2, m2.2) })
  else if pyTruthy survey_id then
    match s.surveys.find? (fun sv => some sv.sid == survey_id) with
    | none => (false, s)
    | some sv =>
      let m1 := mergeRecipient s recipient_key now
      let m2 := mergeResponse m1.1 recipient_key sectionArg responses_json
        survey_id none now
      (true,
        { m2.1 with
          responded_to := mergeEdge m2.1.responded_to (m1.2, sv.nodeId)
          has_response := mergeEdge m2.1.has_response (sv.nodeId, m2.2)
          provided := mergeEdge m2.1.provided (m1.2, m2.2) })
  else
    let m1 := mergeRecipient s recipient_key now
    let m2 := mergeResponse m1.1 recipient_key sectionArg responses_json
      none none now
    (true, { m2.1 with provided := mergeEdge m2.1.provided (m1.2, m2.2) })

/-! ## `log_interaction` -/

/-- `GraphDatabase.log_interaction(logged_by, recipient_key,
interaction_type, notes=None, recipient_pseudonym=None)`.
`MATCH (u:User {username: $logged_by})` first: an absent logger yields zero
rows, so nothing is merged or created and the call returns `False`.
Otherwise the recipient is merged (`ON CREATE SET created_at`; the
pseudonym-variant query additionally has `ON MATCH SET r.pseudonym`, and
notably does not set the pseudonym on create), a fresh `:Interaction` node
is created and the `LOGGED` and `INVOLVES` relationships are added. -/
def log_interaction (s : Store) (logged_by recipient_key interaction_type : String)
    (notes : Option String) (recipient_pseudonym : Option String) (now : Nat) :
    Bool × Store :=
  match s.users.find? (fun u => u.username == logged_by) with
  | none => (false, s)
  | some u =>
    match s.recipients.find? (fun r => r.key == recipient_key) with
    | some r0 =>
      let recs :=
        if pyTruthy recipient_pseudonym then
          s.recipients.map (fun r =>
            if r.key == recipient_key then { r with pseudonym := recipient_pseudonym }
            else r)
        else s.recipients
      (true,
        { s with
          recipients := recs
          interactions := s.interactions ++ [⟨s.nextId, now, interaction_type, notes⟩]
          logged := s.logged ++ [(u.nodeId, s.nextId)]
          involves := s.involves ++ [(s.nextId, r0.nodeId)]
          nextId := s.nextId + 1 })
    | none =>
      (true,
        { s with
          recipients := s.recipients ++ [⟨s.nextId, recipient_key, none, now⟩]
          interactions := s.interactions ++ [⟨s.nextId + 1, now, interaction_type, notes⟩]
          logged := s.logged ++ [(u.nodeId, s.nextId + 1)]
          involves := s.involves ++ [(s.nextId + 1, s.nextId)]
          nextId := s.nextId + 2 })

/-! ## `get_summary_stats` -/

/-- Per-type interaction counts, as produced by grouping on `i.type`:
one `(type, count)` pair per distinct type, in order of first appearance. -/
def typeCounts (l : List InteractionNode) : List (String × Nat) :=
  (l.map (·.itype)).foldl
    (fun acc t =>
      if acc.any (fun p => p.1 == t) then
        acc.map (fun p => if p.1 == t then (p.1, p.2 + 1) else p)
      else acc ++ [(t, 1)])
    []

/-- `GraphDatabase.get_summary_stats()`.  The single Cypher query re-matches
`(i:Interaction)` after counting recipients, so whenever either node set is
empty the grouped aggregation produces zero rows, `result.single()` is
`None` and the zero dictionary is returned.  Otherwise it returns the
interaction count, the recipient count and the per-type counts. -/
def get_summary_stats (s : Store) : Nat × Nat × List (String × Nat) :=
  if s.interactions.isEmpty || s.recipients.isEmpty then (0, 0, [])
  else (s.interactions.length, s.recipients.length, typeCounts s.interactions)

/-! ## `export_interactions_data` -/

/-- One row of `export_interactions_data`. -/
structure ExportRow where
  timestamp : Nat
  itype : String
  notes : Option String
  logged_by : String
  recipient_key : String
  recipient_pseudonym : Option String
deriving Repr, DecidableEq

/-- The unsorted rows of
`MATCH (u:User)-[:LOGGED]->(i:Interaction)-[:INVOLVES]->(r:Recipient)`:
one row per pair of a `LOGGED` and an `INVOLVES` relationship sharing the
interaction node. -/
def exportRows (s : Store) : List ExportRow :=
  s.logged.flatMap (fun e =>
    (s.users.filter (fun u => u.nodeId == e.1)).flatMap (fun u =>
      (s.interactions.filter (fun i => i.nodeId == e.2)).flatMap (fun i =>
        s.involves.flatMap (fun e2 =>
          if e2.1 == i.nodeId then
            (s.recipients.filter (fun r => r.nodeId == e2.2)).map (fun r =>
              ⟨i.timestamp, i.itype, i.notes, u.username, r.key, r.pseudonym⟩)
          else []))))

/-- `GraphDatabase.export_interactions_data()`: the joined rows ordered by
timestamp ascending (`ORDER BY i.timestamp`). -/
def export_interactions_data (s : Store) : List ExportRow :=
  (exportRows s).mergeSort (fun a b => a.timestamp ≤ b.timestamp)

/-! ## `create_survey` -/

/-- `GraphDatabase.create_survey(name, description, sections, created_by)`.
`survey_id` stands for the freshly drawn `uuid.uuid4()` and
`sections_json` for `json.dumps(sections)`.  The query begins with
`MERGE (creator:User {username: $created_by})`: an unknown `created_by`
silently creates a User node carrying only that username (no password
hash, no role, no creation date).  The survey node and the `CREATED`
relationship are then created and the survey id is returned. -/
def create_survey (s : Store) (name description sections_json created_by : String)
    (survey_id : String) (now : Nat) : Option String × Store :=
  match s.users.find? (fun u => u.username == created_by) with
  | some creator =>
    (some survey_id,
      { s with
        surveys := s.surveys ++
          [⟨s.nextId, survey_id, name, description, sections_json, now, created_by⟩]
        created := s.created ++ [(creator.nodeId, s.nextId)]
        nextId := s.nextId + 1 })
  | none =>
    (some survey_id,
      { s with
        users := s.users ++ [⟨s.nextId, created_by, none, none, none⟩]
        surveys := s.surveys ++
          [⟨s.nextId + 1, survey_id, name, description, sections_json, now, created_by⟩]
        created := s.created ++ [(s.nextId, s.nextId + 1)]
        nextId := s.nextId + 2 })

/-! ## Claims -/

/-- C5: for every `logged_by` that names no existing user,
`log_interaction(logged_by, recipient_key, type, ...)` fails (returns
`False`) and the store is unchanged: no Interaction is created and no
Recipient is created for `recipient_key`, so an interaction is never
stored without an existing logger. -/
theorem C5_log_interaction_unknown_logger (s : Store)
    (logged_by recipient_key interaction_type : String)
    (notes pseud : Option String) (now : Nat)
    (h : ∀ u ∈ s.users, u.username ≠ logged_by) :
    log_interaction s logged_by recipient_key interaction_type notes pseud now
      = (false, s) := by
  unfold log_interaction
  have hf : s.users.find? (fun u => u.username == logged_by) = none := by
    rw [List.find?_eq_none]
    intro u hu
    simpa using h u hu
  rw [hf]

/-- Witness for C5 at a concrete input: the empty store has no user named
`"ghost"`, and logging as `"ghost"` fails leaving the store unchanged. -/
theorem C5_witness :
    log_interaction emptyStore "ghost" "k1" "Food" none none 7 = (false, emptyStore) :=
  C5_log_interaction_unknown_logger emptyStore "ghost" "k1" "Food" none none 7
    (by intro u hu; simp [emptyStore] at hu)

/-- `authenticate_user` returns either the undifferentiated failure value
`(false, none)` or a success `(true, some (username, role))`. -/
theorem authenticate_user_shape (checkpw : String → String → Bool) (s : Store)
    (username password : String) :
    authenticate_user checkpw s username password = (false, none) ∨
    ∃ un r, authenticate_user checkpw s username password = (true, some (un, r)) := by
  unfold authenticate_user
  split
  · exact Or.inl rfl
  · split
    · exact Or.inl rfl
    · split
      · exact Or.inr ⟨_, _, rfl⟩
      · exact Or.inl rfl

/-- C7: whenever `authenticate_user` fails — because the username names no
user, because the stored hash is missing, or because the password does not
verify — the returned value is exactly `(false, none)`, identical in every
failure case, so the caller-visible result does not distinguish the
cause. -/
theorem C7_authenticate_failure_undifferentiated
    (checkpw : String → String → Bool) (s : Store) (username password : String)
    (h : (authenticate_user checkpw s username password).1 = false) :
    authenticate_user checkpw s username password = (false, none) := by
  rcases authenticate_user_shape checkpw s username password with he | ⟨un, r, he⟩
  · exact he
  · rw [he] at h
    simp at h

/-- Witness for C7 at a concrete input: authenticating against the empty
store fails and returns exactly `(false, none)`. -/
theorem C7_witness :
    authenticate_user (fun _ _ => false) emptyStore "alice" "pw" = (false, none) :=
  C7_authenticate_failure_undifferentiated (fun _ _ => false) emptyStore "alice" "pw"
    (by rfl)

/-- C10: for every `created_by` naming no existing user, `create_survey`
still succeeds (returns the survey id) and creates a User node carrying
only that username — no password hash and no role — so afterwards not
every stored User has credentials and a role. -/
theorem C10_create_survey_ghost_creator (s : Store)
    (nm ds sj cb sid : String) (now : Nat)
    (h : ∀ u ∈ s.users, u.username ≠ cb) :
    (create_survey s nm ds sj cb sid now).1 = some sid ∧
    ∃ u ∈ (create_survey s nm ds sj cb sid now).2.users,
      u.username = cb ∧ u.password_hash = none ∧ u.role = none := by
  unfold create_survey
  have hf : s.users.find? (fun u => u.username == cb) = none := by
    rw [List.find?_eq_none]
    intro u hu
    simpa using h u hu
  rw [hf]
  refine ⟨rfl, ⟨s.nextId, cb, none, none, none⟩, ?_, rfl, rfl, rfl⟩
  simp

/-- Witness for C10 at a concrete input: creating a survey on the empty
store with unknown creator `"nobody"` succeeds and leaves a credential-less
User node. -/
theorem C10_witness :
    (create_survey emptyStore "n" "d" "[]" "nobody" "id1" 3).1 = some "id1" ∧
    ∃ u ∈ (create_survey emptyStore "n" "d" "[]" "nobody" "id1" 3).2.users,
      u.username = "nobody" ∧ u.password_hash = none ∧ u.role = none :=
  C10_create_survey_ghost_creator emptyStore "n" "d" "[]" "nobody" "id1" 3
    (by intro u hu; simp [emptyStore] at hu)

/-- C4: in every state already containing a user named `username`,
`create_user` with a policy-valid password fails (the `CREATE` violates
the username uniqueness constraint, the handler returns `False`) and the
store is unchanged, so no second user with that username is added.
The uniqueness constraint is modelled from the spec: it is installed by
`init-db.cypher`, which is referenced from the repository but not part of
the source tree. -/
theorem C4_create_user_duplicate (s : Store) (username pw role : String)
    (created_by : Option String) (ph : String) (now : Nat)
    (hv : validate_password pw = true)
    (hdup : ∃ u ∈ s.users, u.username = username) :
    create_user s username pw role created_by ph now = Except.ok (false, s) := by
  have hany : s.users.any (fun u => u.username == username) = true := by
    obtain ⟨u, hu, he⟩ := hdup
    exact List.any_eq_true.mpr ⟨u, hu, by simp [he]⟩
  unfold create_user
  rw [hv, hany]
  by_cases ht : pyTruthy created_by
  · rw [ht]
    cases hf : s.users.find? (fun u => some u.username == created_by) with
    | none => simp
    | some creator => simp
  · rw [Bool.not_eq_true] at ht
    rw [ht]
    simp

/-- Witness for C4 at a concrete input: the store already holding a user
`"alice"` rejects a second `create_user("alice", ...)` unchanged. -/
theorem C4_witness :
    create_user
      { emptyStore with
        users := [⟨0, "alice", some "h0", some "Friend", some 0⟩], nextId := 1 }
      "alice" "Abcdef1!" "Friend" none "h1" 5
      = Except.ok (false,
          { emptyStore with
            users := [⟨0, "alice", some "h0", some "Friend", some 0⟩], nextId := 1 }) :=
  C4_create_user_duplicate _ "alice" "Abcdef1!" "Friend" none "h1" 5 (by decide)
    ⟨⟨0, "alice", some "h0", some "Friend", some 0⟩, by simp, rfl⟩

/-- C3 counterexample: on the empty store, `create_recipient("k", "p1")`
followed by `create_recipient("k", "p2")` leaves the single recipient with
pseudonym `"p1"`, not `"p2"`: the pseudonym assignment is appended to the
`ON CREATE SET` clause, so the second call overwrites nothing. -/
theorem C3_counterexample :
    (create_recipient (create_recipient emptyStore "k" (some "p1") 1).2 "k"
        (some "p2") 2).2.recipients = [⟨0, "k", some "p1", 1⟩] ∧
    ¬ ∃ r ∈ (create_recipient (create_recipient emptyStore "k" (some "p1") 1).2 "k"
        (some "p2") 2).2.recipients, r.pseudonym = some "p2" := by
  decide

/-- C3 amended: for every key and non-empty pseudonyms `p1, p2`, starting
from a store with no recipient for that key, both calls succeed and leave
exactly one Recipient for the key, whose `created_at` is the first call's
timestamp and whose pseudonym is `p1` — the second call leaves the
existing node entirely untouched. -/
theorem C3_create_recipient_amended (s : Store) (key p1 p2 : String) (t1 t2 : Nat)
    (hp1 : p1 ≠ "") (_hp2 : p2 ≠ "")
    (hnew : ∀ r ∈ s.recipients, r.key ≠ key) :
    (create_recipient s key (some p1) t1).1 = true ∧
    (create_recipient (create_recipient s key (some p1) t1).2 key (some p2) t2).1
      = true ∧
    (create_recipient (create_recipient s key (some p1) t1).2 key
        (some p2) t2).2.recipients.filter (fun r => r.key == key)
      = [⟨s.nextId, key, some p1, t1⟩] := by
  have hany : s.recipients.any (fun r => r.key == key) = false := by
    rw [List.any_eq_false]
    intro r hr
    simpa using hnew r hr
  have hfil : s.recipients.filter (fun r => r.key == key) = [] := by
    rw [List.filter_eq_nil_iff]
    intro r hr
    simpa using hnew r hr
  have hb1 : pyTruthy (some p1) = true := by simp [pyTruthy, hp1]
  have e1 : create_recipient s key (some p1) t1
      = (true, { s with
          recipients := s.recipients ++ [⟨s.nextId, key, some p1, t1⟩],
          nextId := s.nextId + 1 }) := by
    unfold create_recipient
    rw [hany, hb1]
    rfl
  rw [e1]
  have e2 : create_recipient
      { s with
        recipients := s.recipients ++ [⟨s.nextId, key, some p1, t1⟩],
        nextId := s.nextId + 1 } key (some p2) t2
      = (true, { s with
          recipients := s.recipients ++ [⟨s.nextId, key, some p1, t1⟩],
          nextId := s.nextId + 1 }) := by
    unfold create_recipient
    have hany2 : (s.recipients ++ [(⟨s.nextId, key, some p1, t1⟩ : RecipientNode)]).any
        (fun r => r.key == key) = true := by
      simp
    rw [hany2]
    rfl
  rw [e2]
  refine ⟨rfl, rfl, ?_⟩
  rw [List.filter_append, hfil]
  simp

/-- Witness for C3's amended theorem at a concrete input. -/
theorem C3_amended_witness :
    (create_recipient (create_recipient emptyStore "k9" (some "a") 4).2 "k9"
        (some "b") 6).2.recipients.filter (fun r => r.key == "k9")
      = [⟨0, "k9", some "a", 4⟩] :=
  (C3_create_recipient_amended emptyStore "k9" "a" "b" 4 6 (by decide) (by decide)
    (by intro r hr; simp [emptyStore] at hr)).2.2

/-- `mergeRecipient` never touches the SurveyResponse nodes. -/
theorem mergeRecipient_responses (s : Store) (key : String) (now : Nat) :
    (mergeRecipient s key now).1.responses = s.responses := by
  unfold mergeRecipient
  split <;> rfl

/-- A response list none of whose members is keyed `(rk, sec)` has no match
for the `MERGE (q:SurveyResponse {section, recipient_key})` pattern. -/
theorem respFind_none (l : List ResponseNode) (rk sec : String)
    (h : ∀ q ∈ l, ¬(q.recipient_key = rk ∧ q.sectionName = sec)) :
    l.find? (fun q => q.sectionName == sec && q.recipient_key == rk) = none := by
  rw [List.find?_eq_none]
  intro q hq
  have hne := h q hq
  simp only [Bool.and_eq_true, beq_iff_eq]
  rintro ⟨h1, h2⟩
  exact hne ⟨h2, h1⟩

/-- The no-survey branch of `save_questionnaire` with no existing response
for `(rk, sec)` appends one fresh SurveyResponse node. -/
theorem save_questionnaire_insert (s : Store) (rk sec a : String) (t : Nat)
    (hf : s.responses.find?
      (fun q => q.sectionName == sec && q.recipient_key == rk) = none) :
    (save_questionnaire s rk sec a none none t).1 = true ∧
    (save_questionnaire s rk sec a none none t).2.responses
      = s.responses
        ++ [⟨(mergeRecipient s rk t).1.nextId, sec, rk, a, t, none, none, none⟩] := by
  have hfm : (mergeRecipient s rk t).1.responses.find?
      (fun q => q.sectionName == sec && q.recipient_key == rk) = none := by
    rw [mergeRecipient_responses]
    exact hf
  unfold save_questionnaire
  simp only [pyTruthy, Bool.and_self, Bool.false_eq_true, if_false]
  unfold mergeResponse
  rw [hfm]
  refine ⟨trivial, ?_⟩
  rw [mergeRecipient_responses]

/-- The no-survey branch of `save_questionnaire` with an existing response
for `(rk, sec)` overwrites `responses_json` and stamps `updated_at` on the
matching nodes. -/
theorem save_questionnaire_update (s : Store) (rk sec a : String) (t : Nat)
    (q0 : ResponseNode)
    (hf : s.responses.find?
      (fun q => q.sectionName == sec && q.recipient_key == rk) = some q0) :
    (save_questionnaire s rk sec a none none t).1 = true ∧
    (save_questionnaire s rk sec a none none t).2.responses
      = s.responses.map (fun q =>
          if q.sectionName == sec && q.recipient_key == rk then
            { q with updated_at := some t, responses_json := a }
          else q) := by
  have hfm : (mergeRecipient s rk t).1.responses.find?
      (fun q => q.sectionName == sec && q.recipient_key == rk) = some q0 := by
    rw [mergeRecipient_responses]
    exact hf
  unfold save_questionnaire
  simp only [pyTruthy, Bool.and_self, Bool.false_eq_true, if_false]
  unfold mergeResponse
  rw [hfm]
  refine ⟨trivial, ?_⟩
  rw [mergeRecipient_responses]

/-- C6: for every recipient key and section with no previously stored
response, `save_response(rk, s, A1)` followed by `save_response(rk, s, A2)`
leaves exactly one stored SurveyResponse for `(rk, s)`, whose answers are
`A2`, whose `created_at` comes from the first call and whose `updated_at`
is stamped by the second call — an upsert, not an append. -/
theorem C6_save_response_upsert (s : Store) (rk sec a1 a2 : String) (t1 t2 : Nat)
    (hnone : ∀ q ∈ s.responses, ¬(q.recipient_key = rk ∧ q.sectionName = sec)) :
    (save_questionnaire s rk sec a1 none none t1).1 = true ∧
    (save_questionnaire (save_questionnaire s rk sec a1 none none t1).2 rk sec a2
      none none t2).1 = true ∧
    ∃ qid,
      (save_questionnaire (save_questionnaire s rk sec a1 none none t1).2 rk sec a2
          none none t2).2.responses.filter
          (fun q => q.recipient_key == rk && q.sectionName == sec)
        = [⟨qid, sec, rk, a2, t1, some t2, none, none⟩] := by
  obtain ⟨h1ok, h1resp⟩ :=
    save_questionnaire_insert s rk sec a1 t1 (respFind_none _ _ _ hnone)
  refine ⟨h1ok, ?_, ?_⟩
  all_goals {
    have hq1 : (save_questionnaire s rk sec a1 none none t1).2.responses.find?
        (fun q => q.sectionName == sec && q.recipient_key == rk)
        = some ⟨(mergeRecipient s rk t1).1.nextId, sec, rk, a1, t1, none, none, none⟩ := by
      rw [h1resp, List.find?_append, respFind_none _ _ _ hnone]
      simp
    obtain ⟨h2ok, h2resp⟩ :=
      save_questionnaire_update (save_questionnaire s rk sec a1 none none t1).2
        rk sec a2 t2 _ hq1
    first
    | exact h2ok
    | {
      refine ⟨(mergeRecipient s rk t1).1.nextId, ?_⟩
      rw [h2resp, h1resp, List.map_append]
      have hmap : s.responses.map (fun q =>
          if q.sectionName == sec && q.recipient_key == rk then
            { q with updated_at := some t2, responses_json := a2 }
          else q) = s.responses := by
        conv_rhs => rw [← List.map_id s.responses]
        apply List.map_congr_left
        intro q hq
        have hne := hnone q hq
        have : (q.sectionName == sec && q.recipient_key == rk) = false := by
          simp only [Bool.and_eq_true, beq_iff_eq] at *
          by_contra hc
          rw [Bool.not_eq_false, Bool.and_eq_true, beq_iff_eq, beq_iff_eq] at hc
          exact hne ⟨hc.2, hc.1⟩
        rw [this]
        rfl
      rw [hmap]
      rw [List.filter_append]
      have hfil : s.responses.filter
          (fun q => q.recipient_key == rk && q.sectionName == sec) = [] := by
        rw [List.filter_eq_nil_iff]
        intro q hq
        have hne := hnone q hq
        simp only [Bool.and_eq_true, beq_iff_eq]
        rintro ⟨hx, hy⟩
        exact hne ⟨hx, hy⟩
      rw [hfil]
      simp
    }
  }

/-- Witness for C6 at a concrete input: two saves for the same
(recipient, section) on the empty store leave one response with the second
answers, the first `created_at` and a populated `updated_at`. -/
theorem C6_witness :
    ∃ qid,
      (save_questionnaire (save_questionnaire emptyStore "rk" "financial" "A1"
          none none 1).2 "rk" "financial" "A2" none none 2).2.responses.filter
          (fun q => q.recipient_key == "rk" && q.sectionName == "financial")
        = [⟨qid, "financial", "rk", "A2", 1, some 2, none, none⟩] :=
  (C6_save_response_upsert emptyStore "rk" "financial" "A1" "A2" 1 2
    (by intro q hq; simp [emptyStore] at hq)).2.2

/-- C9: in a store whose only recipient is `"R1"` and whose interactions
are exactly one of type `"Food"` and one of type `"Clothing"`, `summary()`
reports 2 total interactions, 1 total recipient, and per-type counts
`Food: 1` and `Clothing: 1`. -/
theorem C9_summary_two_types (s : Store) (r : RecipientNode)
    (i1 i2 : InteractionNode)
    (hr : s.recipients = [r]) (hi : s.interactions = [i1, i2])
    (h1 : i1.itype = "Food") (h2 : i2.itype = "Clothing") :
    get_summary_stats s = (2, 1, [("Food", 1), ("Clothing", 1)]) := by
  unfold get_summary_stats typeCounts
  rw [hi, hr]
  simp [h1, h2]

/-- Witness for C9 at a concrete store: one recipient `"R1"`, one `"Food"`
and one `"Clothing"` interaction. -/
theorem C9_witness :
    get_summary_stats
      { emptyStore with
        users := [⟨0, "u", some "h", some "Friend", some 0⟩],
        recipients := [⟨1, "R1", none, 0⟩],
        interactions := [⟨2, 1, "Food", none⟩, ⟨3, 2, "Clothing", none⟩],
        logged := [(0, 2), (0, 3)],
        involves := [(2, 1), (3, 1)],
        nextId := 4 }
      = (2, 1, [("Food", 1), ("Clothing", 1)]) :=
  C9_summary_two_types _ _ _ _ rfl rfl rfl rfl

/-- Store used by C1's counterexample: two Admins, `"alice"` and `"bob"`. -/
def c1Store : Store :=
  { emptyStore with
    users := [⟨0, "alice", some "ha", some "Admin", some 0⟩,
              ⟨1, "bob", some "hb", some "Admin", some 0⟩],
    nextId := 2 }

/-- C1 counterexample: `demote_admin("alice", ["alice", "bob"])` succeeds
and flips alice's role although voter `"alice"` is the target itself — the
code never checks that voters are distinct from the target, so the claim's
"every voter distinct from the target" condition is not required for
success. -/
theorem C1_counterexample :
    (demote_admin c1Store "alice" ["alice", "bob"] 5).1 = true ∧
    (demote_admin c1Store "alice" ["alice", "bob"] 5).2.users.map
        (fun u => (u.username, u.role))
      = [("alice", some "Friend"), ("bob", some "Admin")] := by
  decide

/-- C1 amended: `demote_admin` succeeds iff the voter list has at least 2
entries, at least 2 distinct current Admin nodes are named in it (listing
the same admin twice does not count as two voters, but the target itself
may be among them), and the target is currently an Admin; on success the
target's role flips from Admin to Friend and no other user's role changes;
on any failure the store is unchanged. -/
theorem C1_demote_admin_amended (s : Store) (target : String)
    (votes : List String) (now : Nat) :
    ((demote_admin s target votes now).1 = true ↔
      (2 ≤ votes.length ∧
       2 ≤ (s.users.filter
         (fun u => votes.contains u.username && u.role == some "Admin")).length ∧
       ∃ u ∈ s.users, u.username = target ∧ u.role = some "Admin"))
    ∧ ((demote_admin s target votes now).1 = true →
        (demote_admin s target votes now).2.users
          = s.users.map (fun u =>
              if u.username == target && u.role == some "Admin" then
                { u with role := some "Friend" }
              else u))
    ∧ ((demote_admin s target votes now).1 = false →
        (demote_admin s target votes now).2 = s) := by
  have hexists : (s.users.filter
      (fun u => u.username == target && u.role == some "Admin")) ≠ []
      ↔ ∃ u ∈ s.users, u.username = target ∧ u.role = some "Admin" := by
    rw [ne_eq, List.filter_eq_nil_iff]
    push_neg
    simp
  simp only [demote_admin]
  split_ifs with hlen hcnt hemp
  · refine ⟨?_, ?_, fun _ => rfl⟩
    · simp only [Bool.false_eq_true, false_iff]
      rintro ⟨h2, -, -⟩
      omega
    · intro h
      simp at h
  · refine ⟨?_, ?_, fun _ => rfl⟩
    · simp only [Bool.false_eq_true, false_iff]
      rintro ⟨-, h2, -⟩
      omega
    · intro h
      simp at h
  · refine ⟨?_, ?_, fun _ => rfl⟩
    · simp only [Bool.false_eq_true, false_iff]
      rintro ⟨-, -, hex⟩
      rw [List.isEmpty_iff] at hemp
      exact (hexists.mpr hex) hemp
    · intro h
      simp at h
  · have hne : (s.users.filter
        (fun u => votes.contains u.username && u.role == some "Admin")) ≠ [] := by
      intro hnil
      rw [hnil] at hcnt
      simp at hcnt
    obtain ⟨d, hd⟩ := List.exists_mem_of_ne_nil _ hne
    have hdu := List.mem_filter.mp hd
    obtain ⟨hdin, hdprop⟩ := hdu
    rw [Bool.and_eq_true] at hdprop
    rw [List.isEmpty_iff] at hemp
    obtain ⟨t, ht⟩ := List.exists_mem_of_ne_nil _ hemp
    have hedge : (d.nodeId, t.nodeId) ∈
        (s.users.filter (fun u => u.username == target && u.role == some "Admin")).flatMap
          (fun t => votes.flatMap (fun nm =>
            (s.users.filter (fun d => d.username == nm)).map
              (fun d => (d.nodeId, t.nodeId)))) := by
      rw [List.mem_flatMap]
      refine ⟨t, ht, ?_⟩
      rw [List.mem_flatMap]
      refine ⟨d.username, ?_, ?_⟩
      · exact List.mem_of_elem_eq_true hdprop.1
      · rw [List.mem_map]
        exact ⟨d, List.mem_filter.mpr ⟨hdin, by simp⟩, rfl⟩
    have hnonempty : ((s.users.filter
        (fun u => u.username == target && u.role == some "Admin")).flatMap
          (fun t => votes.flatMap (fun nm =>
            (s.users.filter (fun d => d.username == nm)).map
              (fun d => (d.nodeId, t.nodeId))))).isEmpty = false := by
      rw [List.isEmpty_eq_false_iff_exists_mem]
      exact ⟨_, hedge⟩
    rw [hnonempty]
    refine ⟨?_, fun _ => rfl, ?_⟩
    · simp only [Bool.not_false, true_iff]
      refine ⟨by omega, by omega, ?_⟩
      exact hexists.mp hemp
    · intro h
      simp at h

/-- Witness for C1's amended theorem at a concrete input: two distinct
Admin voters distinct from the Admin target make the demotion succeed. -/
theorem C1_amended_witness :
    (demote_admin
      { emptyStore with
        users := [⟨0, "alice", some "ha", some "Admin", some 0⟩,
                  ⟨1, "bob", some "hb", some "Admin", some 0⟩,
                  ⟨2, "carol", some "hc", some "Admin", some 0⟩],
        nextId := 3 } "carol" ["alice", "bob"] 9).1 = true :=
  (C1_demote_admin_amended
    { emptyStore with
      users := [⟨0, "alice", some "ha", some "Admin", some 0⟩,
                ⟨1, "bob", some "hb", some "Admin", some 0⟩,
                ⟨2, "carol", some "hc", some "Admin", some 0⟩],
      nextId := 3 } "carol" ["alice", "bob"] 9).1.mpr (by decide)

/-- Store used by C2's counterexample: only a seed Admin named `"root"`. -/
def rootOnlyStore : Store :=
  { emptyStore with
    users := [⟨0, "root", some "hr", some "Admin", some 0⟩],
    nextId := 1 }

/-- C2 counterexample: starting from a store containing only a seed Admin
account named `"root"`, `create_user("first", p, role=Friend)` stores
`"first"` with role Friend, not Admin — the auto-promotion counts the
users other than `'Hello'`, and `"root"` already counts as one. -/
theorem C2_counterexample :
    (create_user rootOnlyStore "first" "Abcdef1!" "Friend" none "h1" 1).toOption.map
      (fun p => p.2.users.map (fun u => (u.username, u.role)))
      = some [("root", some "Admin"), ("first", some "Friend")] := by
  decide

/-- C2 amended: the seed account is named `"Hello"`.  Starting from a
store containing only the seed account `"Hello"`,
`create_user("first", p, role=Friend)` stores `"first"` with role Admin
(auto-promotion of the first non-seed user), and a subsequent
`create_user("second", p, role=Friend)` stores `"second"` with role
Friend. -/
theorem C2_create_user_amended (seed : UserNode) (hseed : seed.username = "Hello")
    (p1 p2 h1 h2 : String) (t1 t2 : Nat)
    (hv1 : validate_password p1 = true) (hv2 : validate_password p2 = true) :
    ∃ s1 s2,
      create_user { emptyStore with users := [seed], nextId := 1 }
          "first" p1 "Friend" none h1 t1 = Except.ok (true, s1)
      ∧ create_user s1 "second" p2 "Friend" none h2 t2 = Except.ok (true, s2)
      ∧ s2.users.map (fun u => (u.username, u.role))
          = [("Hello", seed.role), ("first", some "Admin"),
             ("second", some "Friend")] := by
  have e1 : create_user { emptyStore with users := [seed], nextId := 1 }
      "first" p1 "Friend" none h1 t1
      = Except.ok (true, { emptyStore with
          users := [seed, ⟨1, "first", some h1, some "Admin", some t1⟩],
          nextId := 2 }) := by
    unfold create_user
    rw [hv1]
    simp [pyTruthy, hseed, emptyStore]
  have e2 : create_user { emptyStore with
        users := [seed, ⟨1, "first", some h1, some "Admin", some t1⟩],
        nextId := 2 } "second" p2 "Friend" none h2 t2
      = Except.ok (true, { emptyStore with
          users := [seed, ⟨1, "first", some h1, some "Admin", some t1⟩,
                    ⟨2, "second", some h2, some "Friend", some t2⟩],
          nextId := 3 }) := by
    unfold create_user
    rw [hv2]
    simp [pyTruthy, hseed, emptyStore]
  refine ⟨_, _, e1, e2, ?_⟩
  simp [hseed]

/-- Witness for C2's amended theorem at a concrete seed node and concrete
valid passwords. -/
theorem C2_amended_witness :
    ∃ s1 s2,
      create_user
          { emptyStore with
            users := [⟨0, "Hello", some "sh", some "Greeter", some 0⟩], nextId := 1 }
          "first" "Abcdef1!" "Friend" none "h1" 1 = Except.ok (true, s1)
      ∧ create_user s1 "second" "Ghijkl2?" "Friend" none "h2" 2 = Except.ok (true, s2)
      ∧ s2.users.map (fun u => (u.username, u.role))
          = [("Hello", some "Greeter"), ("first", some "Admin"),
             ("second", some "Friend")] :=
  C2_create_user_amended ⟨0, "Hello", some "sh", some "Greeter", some 0⟩ rfl
    "Abcdef1!" "Ghijkl2?" "h1" "h2" 1 2 (by decide) (by decide)

/-- Store used by C8's counterexample: user `"u"` has logged one `"Food"`
interaction for recipient `"R"`. -/
def c8Store : Store :=
  { emptyStore with
    users := [⟨0, "u", some "h", some "Friend", some 0⟩],
    recipients := [⟨1, "R", none, 0⟩],
    interactions := [⟨2, 3, "Food", none⟩],
    logged := [(0, 2)],
    involves := [(2, 1)],
    nextId := 3 }

/-- C8 counterexample: after `delete_user("u")` the Interaction node still
exists, but `export_interactions_data` returns no rows at all — `DETACH
DELETE` removed the `LOGGED` edge and the Interaction node carries no
username attribute, so the interaction is no longer retrievable with its
logger identified, contradicting the claim. -/
theorem C8_counterexample :
    (delete_user c8Store "u").1 = true ∧
    (delete_user c8Store "u").2.interactions = [⟨2, 3, "Food", none⟩] ∧
    export_interactions_data (delete_user c8Store "u").2 = [] := by
  refine ⟨by decide, by decide, ?_⟩
  have hrows : exportRows (delete_user c8Store "u").2 = [] := by decide
  rw [export_interactions_data, hrows, List.mergeSort_nil]

/-- C8 amended: `delete_user(u)` does not delete Interaction nodes, but it
detaches all of u's edges including the `LOGGED` ones, and Interaction
nodes carry no username attribute, so after the deletion no exported
interaction row identifies `u` as its logger (u's interactions disappear
from the export instead of retaining the username). -/
theorem C8_delete_user_amended (s : Store) (un : String) :
    (delete_user s un).2.interactions = s.interactions ∧
    ∀ row ∈ export_interactions_data (delete_user s un).2,
      row.logged_by ≠ un := by
  refine ⟨rfl, ?_⟩
  intro row hrow
  rw [export_interactions_data, List.mem_mergeSort] at hrow
  rw [exportRows, List.mem_flatMap] at hrow
  obtain ⟨e, _, hrow⟩ := hrow
  rw [List.mem_flatMap] at hrow
  obtain ⟨u, hu, hrow⟩ := hrow
  rw [List.mem_flatMap] at hrow
  obtain ⟨i, _, hrow⟩ := hrow
  rw [List.mem_flatMap] at hrow
  obtain ⟨e2, _, hrow⟩ := hrow
  have hun : u.username ≠ un := by
    have hu1 := (List.mem_filter.mp hu).1
    have hu2 := (List.mem_filter.mp hu1).2
    simpa using hu2
  by_cases hc : (e2.1 == i.nodeId) = true
  · rw [if_pos hc] at hrow
    rw [List.mem_map] at hrow
    obtain ⟨r, _, hr⟩ := hrow
    rw [← hr]
    exact hun
  · rw [if_neg hc] at hrow
    simp at hrow

/-- Store used by C8's amended witness: a second user `"v"` also logged an
interaction, which survives the deletion of `"u"` with `"v"` as logger. -/
def c8bStore : Store :=
  { emptyStore with
    users := [⟨0, "u", some "h", some "Friend", some 0⟩,
              ⟨1, "v", some "h", some "Friend", some 0⟩],
    recipients := [⟨4, "R", none, 0⟩],
    interactions := [⟨2, 3, "Food", none⟩, ⟨3, 7, "Meal", none⟩],
    logged := [(0, 2), (1, 3)],
    involves := [(2, 4), (3, 4)],
    nextId := 5 }

/-- Witness for C8's amended theorem at a concrete input: the surviving
exported row after deleting `"u"` does not name `"u"` as logger. -/
theorem C8_amended_witness :
    (⟨7, "Meal", none, "v", "R", none⟩ : ExportRow).logged_by ≠ "u" :=
  (C8_delete_user_amended c8bStore "u").2 ⟨7, "Meal", none, "v", "R", none⟩
    (by rw [export_interactions_data, List.mem_mergeSort]; decide)

end KindMesh
